import Mathlib

/-!
Shallow embedding of the Python binding layer of `libsevenzip`
(`src/examples/python/sevenzip.py` and `src/examples/python/sevenzip_ffi.py`).

The native engine is external: every wrapper method that crosses the FFI
boundary is modelled as a function that additionally takes the result code
the native call would return (an oracle parameter) and records the native
calls it performs in an explicit trace (`List NativeCall`).  Python
exceptions are modelled with `Except SevenZipError`; the mutable `_handle`
and `_finalized` attributes become explicit state records.
-/

namespace LibSevenZip

/-- `SzResult` of `sevenzip.py` (lines 74-92): the result-code enumeration
with its explicit `IntEnum` ordinal values. -/
inductive SzResult
  | OK
  | FAIL
  | OUT_OF_MEMORY
  | FILE_NOT_FOUND
  | ACCESS_DENIED
  | INVALID_ARGUMENT
  | UNSUPPORTED_FORMAT
  | CORRUPTED_ARCHIVE
  | WRONG_PASSWORD
  | UNKNOWN_ERROR
  | INDEX_OUT_OF_RANGE
  | BUFFER_TOO_SMALL
  | OPERATION_CANCELLED
  | WRITE_ERROR
  | READ_ERROR
  | NOT_IMPLEMENTED
  | DISK_FULL
deriving DecidableEq, Repr

/-- The `IntEnum` value of each `SzResult` member, as written in
`sevenzip.py`. -/
def SzResult.val : SzResult → Nat
  | .OK => 0
  | .FAIL => 1
  | .OUT_OF_MEMORY => 2
  | .FILE_NOT_FOUND => 3
  | .ACCESS_DENIED => 4
  | .INVALID_ARGUMENT => 5
  | .UNSUPPORTED_FORMAT => 6
  | .CORRUPTED_ARCHIVE => 7
  | .WRONG_PASSWORD => 8
  | .UNKNOWN_ERROR => 9
  | .INDEX_OUT_OF_RANGE => 10
  | .BUFFER_TOO_SMALL => 11
  | .OPERATION_CANCELLED => 12
  | .WRITE_ERROR => 13
  | .READ_ERROR => 14
  | .NOT_IMPLEMENTED => 15
  | .DISK_FULL => 16

/-- `SzResult` of `sevenzip_ffi.py` (lines 68-84): the other result-code
enumeration defined by the same repository. -/
inductive SzResultFfi
  | OK
  | FAIL
  | OUT_OF_MEMORY
  | INVALID_ARGUMENT
  | FILE_NOT_FOUND
  | ACCESS_DENIED
  | UNSUPPORTED_FORMAT
  | CORRUPTED_ARCHIVE
  | WRONG_PASSWORD
  | NOT_IMPLEMENTED
  | ABORTED
  | DISK_FULL
  | INTERNAL_ERROR
  | BUSY
  | INVALID_STATE
deriving DecidableEq, Repr

/-- The `IntEnum` value of each `SzResultFfi` member (auto-numbered 0..14 in
declaration order in `sevenzip_ffi.py`). -/
def SzResultFfi.val : SzResultFfi → Nat
  | .OK => 0
  | .FAIL => 1
  | .OUT_OF_MEMORY => 2
  | .INVALID_ARGUMENT => 3
  | .FILE_NOT_FOUND => 4
  | .ACCESS_DENIED => 5
  | .UNSUPPORTED_FORMAT => 6
  | .CORRUPTED_ARCHIVE => 7
  | .WRONG_PASSWORD => 8
  | .NOT_IMPLEMENTED => 9
  | .ABORTED => 10
  | .DISK_FULL => 11
  | .INTERNAL_ERROR => 12
  | .BUSY => 13
  | .INVALID_STATE => 14

/-- `SzFormat` of `sevenzip.py` (lines 95-106). -/
inductive SzFormat
  | SEVEN_Z
  | ZIP
  | TAR
  | GZIP
  | BZIP2
  | XZ
  | RAR
  | CAB
  | ISO
  | WIM
deriving DecidableEq, Repr

/-- The `IntEnum` value of each `SzFormat` member in `sevenzip.py`. -/
def SzFormat.val : SzFormat → Nat
  | .SEVEN_Z => 0
  | .ZIP => 1
  | .TAR => 2
  | .GZIP => 3
  | .BZIP2 => 4
  | .XZ => 5
  | .RAR => 6
  | .CAB => 7
  | .ISO => 8
  | .WIM => 9

/-- `SzFormat` of `sevenzip_ffi.py` (lines 87-95). -/
inductive SzFormatFfi
  | AUTO
  | SEVENZIP
  | ZIP
  | TAR
  | GZIP
  | BZIP2
  | XZ
deriving DecidableEq, Repr

/-- The `IntEnum` value of each `SzFormatFfi` member in `sevenzip_ffi.py`. -/
def SzFormatFfi.val : SzFormatFfi → Nat
  | .AUTO => 0
  | .SEVENZIP => 1
  | .ZIP => 2
  | .TAR => 3
  | .GZIP => 4
  | .BZIP2 => 5
  | .XZ => 6

/-- `SzCompressionLevel` of `sevenzip.py` (lines 109-115). -/
inductive SzCompressionLevel
  | NONE
  | FAST
  | NORMAL
  | MAXIMUM
  | ULTRA
deriving DecidableEq, Repr

/-- The `IntEnum` value of each `SzCompressionLevel` member in
`sevenzip.py`. -/
def SzCompressionLevel.val : SzCompressionLevel → Nat
  | .NONE => 0
  | .FAST => 1
  | .NORMAL => 2
  | .MAXIMUM => 3
  | .ULTRA => 4

/-- Member names of `sevenzip.py`'s `SzResult` paired with their ordinal
values, in declaration order. -/
def SzResult.members : List (String × Nat) :=
  [("OK", SzResult.OK.val), ("FAIL", SzResult.FAIL.val),
   ("OUT_OF_MEMORY", SzResult.OUT_OF_MEMORY.val),
   ("FILE_NOT_FOUND", SzResult.FILE_NOT_FOUND.val),
   ("ACCESS_DENIED", SzResult.ACCESS_DENIED.val),
   ("INVALID_ARGUMENT", SzResult.INVALID_ARGUMENT.val),
   ("UNSUPPORTED_FORMAT", SzResult.UNSUPPORTED_FORMAT.val),
   ("CORRUPTED_ARCHIVE", SzResult.CORRUPTED_ARCHIVE.val),
   ("WRONG_PASSWORD", SzResult.WRONG_PASSWORD.val),
   ("UNKNOWN_ERROR", SzResult.UNKNOWN_ERROR.val),
   ("INDEX_OUT_OF_RANGE", SzResult.INDEX_OUT_OF_RANGE.val),
   ("BUFFER_TOO_SMALL", SzResult.BUFFER_TOO_SMALL.val),
   ("OPERATION_CANCELLED", SzResult.OPERATION_CANCELLED.val),
   ("WRITE_ERROR", SzResult.WRITE_ERROR.val),
   ("READ_ERROR", SzResult.READ_ERROR.val),
   ("NOT_IMPLEMENTED", SzResult.NOT_IMPLEMENTED.val),
   ("DISK_FULL", SzResult.DISK_FULL.val)]

/-- Member names of `sevenzip_ffi.py`'s `SzResult` paired with their ordinal
values, in declaration order. -/
def SzResultFfi.members : List (String × Nat) :=
  [("OK", SzResultFfi.OK.val), ("FAIL", SzResultFfi.FAIL.val),
   ("OUT_OF_MEMORY", SzResultFfi.OUT_OF_MEMORY.val),
   ("INVALID_ARGUMENT", SzResultFfi.INVALID_ARGUMENT.val),
   ("FILE_NOT_FOUND", SzResultFfi.FILE_NOT_FOUND.val),
   ("ACCESS_DENIED", SzResultFfi.ACCESS_DENIED.val),
   ("UNSUPPORTED_FORMAT", SzResultFfi.UNSUPPORTED_FORMAT.val),
   ("CORRUPTED_ARCHIVE", SzResultFfi.CORRUPTED_ARCHIVE.val),
   ("WRONG_PASSWORD", SzResultFfi.WRONG_PASSWORD.val),
   ("NOT_IMPLEMENTED", SzResultFfi.NOT_IMPLEMENTED.val),
   ("ABORTED", SzResultFfi.ABORTED.val),
   ("DISK_FULL", SzResultFfi.DISK_FULL.val),
   ("INTERNAL_ERROR", SzResultFfi.INTERNAL_ERROR.val),
   ("BUSY", SzResultFfi.BUSY.val),
   ("INVALID_STATE", SzResultFfi.INVALID_STATE.val)]

/-- Member names of `sevenzip.py`'s `SzFormat` paired with their ordinal
values. -/
def SzFormat.members : List (String × Nat) :=
  [("SEVEN_Z", SzFormat.SEVEN_Z.val), ("ZIP", SzFormat.ZIP.val),
   ("TAR", SzFormat.TAR.val), ("GZIP", SzFormat.GZIP.val),
   ("BZIP2", SzFormat.BZIP2.val), ("XZ", SzFormat.XZ.val),
   ("RAR", SzFormat.RAR.val), ("CAB", SzFormat.CAB.val),
   ("ISO", SzFormat.ISO.val), ("WIM", SzFormat.WIM.val)]

/-- Member names of `sevenzip_ffi.py`'s `SzFormat` paired with their ordinal
values. -/
def SzFormatFfi.members : List (String × Nat) :=
  [("AUTO", SzFormatFfi.AUTO.val), ("SEVENZIP", SzFormatFfi.SEVENZIP.val),
   ("ZIP", SzFormatFfi.ZIP.val), ("TAR", SzFormatFfi.TAR.val),
   ("GZIP", SzFormatFfi.GZIP.val), ("BZIP2", SzFormatFfi.BZIP2.val),
   ("XZ", SzFormatFfi.XZ.val)]

/-- `SevenZipError` of `sevenzip.py` (lines 213-217): exception carrying a
message and a result code; the code defaults to `SzResult.FAIL`. -/
structure SevenZipError where
  msg : String
  code : SzResult
deriving DecidableEq, Repr

/-- One call into the native `sevenzip_ffi` shared library (or the
byte-copy `ctypes.string_at`), as recorded in an execution trace. -/
inductive NativeCall
  | sz_writer_create (path : String) (format : Nat)
  | sz_writer_add_file (src : String) (arch : String)
  | sz_writer_add_directory (dir : String) (recursive : Bool)
  | sz_writer_add_memory (len : Nat) (arch : String)
  | sz_writer_set_password (pw : String)
  | sz_writer_set_compression_level (lvl : Nat)
  | sz_writer_finalize
  | sz_writer_cancel
  | sz_archive_open (path : String)
  | sz_archive_close
  | sz_archive_get_item_count
  | sz_archive_get_item_info (i : Nat)
  | sz_archive_extract_to_memory (i : Nat)
  | ctypes_string_at
  | sz_memory_free
deriving DecidableEq, Repr

/-- The mutable attributes of a `Writer` instance: `_handle` (an opaque
native pointer, `none` once nulled) and `_finalized`. -/
structure WriterState where
  handle : Option Nat
  finalized : Bool
deriving DecidableEq, Repr

/-- The mutable attribute of an `Archive` instance: `_handle`. -/
structure ArchiveState where
  handle : Option Nat
deriving DecidableEq, Repr

/-- Outcome of running one wrapper method: the Python return value or the
raised exception, the state of the instance afterwards (mutations made
before a raise persist), and the trace of native calls performed. -/
structure Outcome (σ : Type) (α : Type) where
  result : Except SevenZipError α
  state : σ
  calls : List NativeCall
deriving Repr

deriving instance DecidableEq for Except

deriving instance DecidableEq for Outcome

/-- `_check_result` (`sevenzip.py` lines 220-228) raises `SevenZipError`
on a non-`OK` code.  The native-supplied detail message is not modelled
(it lives in the external engine); the fallback text is used together
with the code suffix.  No claim depends on the message of native
failures. -/
def check_result_error (operation : String) (result : SzResult) : SevenZipError :=
  ⟨operation ++ "失败 (code=" ++ toString result.val ++ ")", result⟩

/-- Python's `str.lower()` (ASCII case folding, which covers every
format and level name involved). -/
def py_lower (s : String) : String := ⟨s.data.map Char.toLower⟩

/-- Splitting a character list at a separator, Python
`str.split(sep)`-style: splitting the empty string yields `[""]` and
separators at the ends yield empty components. -/
def split_on_char (c : Char) : List Char → List (List Char)
  | [] => [[]]
  | x :: xs =>
    let r := split_on_char c xs
    if x = c then [] :: r
    else match r with
      | [] => [[x]]
      | y :: ys => (x :: y) :: ys

/-- A POSIX path split at `'/'`. -/
def split_slash (s : String) : List String :=
  (split_on_char '/' s.data).map (fun l => ⟨l⟩)

/-- `PurePosixPath(p).name` of Python's `pathlib`, used by
`Writer.add_file` for the default archive path: the final path component,
where empty components and `.` components are dropped by the parser. -/
def pathlib_name (p : String) : String :=
  ((split_slash p).filter (fun c => c != "" && c != ".")).getLast?.getD ""

/-- `format_map.get(format.lower(), SzFormat.SEVEN_Z)` in `Writer.create`
(`sevenzip.py` lines 380-392): the dictionary lookup on the lowercased
format string, falling back to `SEVEN_Z`. -/
def format_map_get (format : String) : SzFormat :=
  let k := py_lower format
  if k = "7z" then .SEVEN_Z
  else if k = "sevenzip" then .SEVEN_Z
  else if k = "zip" then .ZIP
  else if k = "tar" then .TAR
  else if k = "gzip" then .GZIP
  else if k = "gz" then .GZIP
  else if k = "bzip2" then .BZIP2
  else if k = "bz2" then .BZIP2
  else if k = "xz" then .XZ
  else .SEVEN_Z

/-- `level_map.get(level.lower(), SzCompressionLevel.NORMAL)` in
`Writer.set_compression_level` (`sevenzip.py` lines 481-489). -/
def level_map_get (level : String) : SzCompressionLevel :=
  let k := py_lower level
  if k = "none" then .NONE
  else if k = "fast" then .FAST
  else if k = "normal" then .NORMAL
  else if k = "maximum" then .MAXIMUM
  else if k = "ultra" then .ULTRA
  else .NORMAL

/-- `Writer.create` (`sevenzip.py` lines 364-399).  `format` is
`Union[str, SzFormat]`; a string goes through `format_map_get`.  `native`
is the code returned by `sz_writer_create` and `hdl` the handle the native
library stores through the out-pointer on success. -/
def Writer.create (path : String) (format : String ⊕ SzFormat)
    (native : SzResult) (hdl : Nat) :
    Except SevenZipError WriterState × List NativeCall :=
  let f := match format with
    | .inl s => format_map_get s
    | .inr f => f
  let calls := [NativeCall.sz_writer_create path f.val]
  if native = .OK then (.ok ⟨some hdl, false⟩, calls)
  else (.error (check_result_error "创建归档写入器" native), calls)

/-- `Writer.add_file` (`sevenzip.py` lines 401-418).  The archive path
sent to the native call is `archive_path or Path(file_path).name`: Python
truthiness sends both `None` and the empty string to the default. -/
def Writer.add_file (s : WriterState) (file_path : String)
    (archive_path : Option String) (native : SzResult) :
    Outcome WriterState Unit :=
  match s.handle with
  | none => ⟨.error ⟨"写入器未初始化", .FAIL⟩, s, []⟩
  | some _ =>
    if s.finalized then ⟨.error ⟨"归档已完成，不能添加更多文件", .FAIL⟩, s, []⟩
    else
      let ap := match archive_path with
        | some p => if p = "" then pathlib_name file_path else p
        | none => pathlib_name file_path
      let calls := [NativeCall.sz_writer_add_file file_path ap]
      if native = .OK then ⟨.ok (), s, calls⟩
      else ⟨.error (check_result_error "添加文件" native), s, calls⟩

/-- `Writer.add_directory` (`sevenzip.py` lines 420-435). -/
def Writer.add_directory (s : WriterState) (dir_path : String)
    (recursive : Bool) (native : SzResult) : Outcome WriterState Unit :=
  match s.handle with
  | none => ⟨.error ⟨"写入器未初始化", .FAIL⟩, s, []⟩
  | some _ =>
    if s.finalized then ⟨.error ⟨"归档已完成，不能添加更多目录", .FAIL⟩, s, []⟩
    else
      let calls := [NativeCall.sz_writer_add_directory dir_path recursive]
      if native = .OK then ⟨.ok (), s, calls⟩
      else ⟨.error (check_result_error "添加目录" native), s, calls⟩

/-- `Writer.add_memory` (`sevenzip.py` lines 437-456); the payload is
passed by pointer and length, so only its length reaches the trace. -/
def Writer.add_memory (s : WriterState) (data : List Nat)
    (archive_path : String) (native : SzResult) : Outcome WriterState Unit :=
  match s.handle with
  | none => ⟨.error ⟨"写入器未初始化", .FAIL⟩, s, []⟩
  | some _ =>
    if s.finalized then ⟨.error ⟨"归档已完成，不能添加更多数据", .FAIL⟩, s, []⟩
    else
      let calls := [NativeCall.sz_writer_add_memory data.length archive_path]
      if native = .OK then ⟨.ok (), s, calls⟩
      else ⟨.error (check_result_error "添加内存数据" native), s, calls⟩

/-- `Writer.set_password` (`sevenzip.py` lines 458-467). -/
def Writer.set_password (s : WriterState) (password : String)
    (native : SzResult) : Outcome WriterState Unit :=
  match s.handle with
  | none => ⟨.error ⟨"写入器未初始化", .FAIL⟩, s, []⟩
  | some _ =>
    if s.finalized then ⟨.error ⟨"归档已完成，不能设置密码", .FAIL⟩, s, []⟩
    else
      let calls := [NativeCall.sz_writer_set_password password]
      if native = .OK then ⟨.ok (), s, calls⟩
      else ⟨.error (check_result_error "设置密码" native), s, calls⟩

/-- `Writer.set_compression_level` (`sevenzip.py` lines 469-492).
`level` is `Union[str, SzCompressionLevel]`. -/
def Writer.set_compression_level (s : WriterState)
    (level : String ⊕ SzCompressionLevel) (native : SzResult) :
    Outcome WriterState Unit :=
  match s.handle with
  | none => ⟨.error ⟨"写入器未初始化", .FAIL⟩, s, []⟩
  | some _ =>
    if s.finalized then ⟨.error ⟨"归档已完成，不能设置压缩级别", .FAIL⟩, s, []⟩
    else
      let l := match level with
        | .inl str => level_map_get str
        | .inr lv => lv
      let calls := [NativeCall.sz_writer_set_compression_level l.val]
      if native = .OK then ⟨.ok (), s, calls⟩
      else ⟨.error (check_result_error "设置压缩级别" native), s, calls⟩

/-- `Writer.finalize` (`sevenzip.py` lines 494-503): raises when the
handle was nulled, returns silently when already finalized, otherwise
calls `sz_writer_finalize` and on success sets `_finalized`. -/
def Writer.finalize (s : WriterState) (native : SzResult) :
    Outcome WriterState Unit :=
  match s.handle with
  | none => ⟨.error ⟨"写入器未初始化", .FAIL⟩, s, []⟩
  | some _ =>
    if s.finalized then ⟨.ok (), s, []⟩
    else if native = .OK then
      ⟨.ok (), { s with finalized := true }, [NativeCall.sz_writer_finalize]⟩
    else ⟨.error (check_result_error "完成归档" native), s, [NativeCall.sz_writer_finalize]⟩

/-- `Writer.cancel` (`sevenzip.py` lines 505-510): when the handle is
still set it calls `sz_writer_cancel`, nulls the handle and marks the
writer finalized; otherwise it does nothing.  It cannot raise
(`sz_writer_cancel` returns `None` and no result is checked). -/
def Writer.cancel (s : WriterState) : WriterState × List NativeCall :=
  match s.handle with
  | none => (s, [])
  | some _ => (⟨none, true⟩, [NativeCall.sz_writer_cancel])

/-- `Archive.close` (`sevenzip.py` lines 288-292): calls
`sz_archive_close` and nulls the handle, only when the handle is set. -/
def Archive.close (s : ArchiveState) : ArchiveState × List NativeCall :=
  match s.handle with
  | none => (s, [])
  | some _ => (⟨none⟩, [NativeCall.sz_archive_close])

/-- `Archive.item_count` (`sevenzip.py` lines 301-310).  `count` is the
value the native call stores through the out-pointer. -/
def Archive.item_count (s : ArchiveState) (native : SzResult)
    (count : Nat) : Outcome ArchiveState Nat :=
  match s.handle with
  | none => ⟨.error ⟨"归档未打开", .FAIL⟩, s, []⟩
  | some _ =>
    let calls := [NativeCall.sz_archive_get_item_count]
    if native = .OK then ⟨.ok count, s, calls⟩
    else ⟨.error (check_result_error "获取项目数量" native), s, calls⟩

/-- `SzItemInfo` (`sevenzip.py` lines 124-137): the C struct filled by
`sz_archive_get_item_info`.  `path` is a `char*` that may be `NULL`. -/
structure SzItemInfo where
  index : Nat
  path : Option String
  size : Nat
  packed_size : Nat
  crc : Nat
  has_crc : Int
  creation_time : Int
  modification_time : Int
  is_directory : Int
  is_encrypted : Int
deriving DecidableEq, Repr

/-- `Item` (`sevenzip.py` lines 235-249): the Python-side view built in
`Item.__init__` from an `SzItemInfo`. -/
structure Item where
  index : Nat
  path : String
  size : Nat
  packed_size : Nat
  compressed_size : Nat
  is_directory : Bool
  is_encrypted : Bool
  crc : Option Nat
  has_crc : Bool
  creation_time : Int
  modification_time : Int
deriving DecidableEq, Repr

/-- `Item.__init__` (`sevenzip.py` lines 238-249). -/
def Item.ofInfo (info : SzItemInfo) : Item where
  index := info.index
  path := info.path.getD ""
  size := info.size
  packed_size := info.packed_size
  compressed_size := info.packed_size
  is_directory := info.is_directory != 0
  is_encrypted := info.is_encrypted != 0
  crc := if info.has_crc != 0 then some info.crc else none
  has_crc := info.has_crc != 0
  creation_time := info.creation_time
  modification_time := info.modification_time

/-- `Archive.get_item_info` (`sevenzip.py` lines 312-320).  `info` is the
struct content the native call fills on success. -/
def Archive.get_item_info (s : ArchiveState) (index : Nat)
    (native : SzResult) (info : SzItemInfo) : Outcome ArchiveState Item :=
  match s.handle with
  | none => ⟨.error ⟨"归档未打开", .FAIL⟩, s, []⟩
  | some _ =>
    let calls := [NativeCall.sz_archive_get_item_info index]
    if native = .OK then ⟨.ok (Item.ofInfo info), s, calls⟩
    else ⟨.error (check_result_error "获取项目信息" native), s, calls⟩

/-- `Archive.extract_to_memory` (`sevenzip.py` lines 322-341).  On native
success the buffer is copied into a Python `bytes` object with
`ctypes.string_at` inside a `try`, and `sz_memory_free` runs in the
`finally` block after the copy; `buf` is the byte content of the
native-allocated buffer. -/
def Archive.extract_to_memory (s : ArchiveState) (index : Nat)
    (native : SzResult) (buf : List Nat) : Outcome ArchiveState (List Nat) :=
  match s.handle with
  | none => ⟨.error ⟨"归档未打开", .FAIL⟩, s, []⟩
  | some _ =>
    if native = .OK then
      ⟨.ok buf, s,
        [NativeCall.sz_archive_extract_to_memory index,
         NativeCall.ctypes_string_at, NativeCall.sz_memory_free]⟩
    else
      ⟨.error (check_result_error "提取到内存" native), s,
        [NativeCall.sz_archive_extract_to_memory index]⟩

/-- `Writer.__exit__` (`sevenzip.py` lines 515-519).  With no pending
exception it runs `self.finalize()` then `self.cancel()`; if `finalize`
raises, `cancel` is not reached and the new exception propagates.  With a
pending exception (`exc` true) it runs only `self.cancel()` and returns
`False`, so the original exception propagates. -/
def Writer.exit_ctx (s : WriterState) (exc : Bool)
    (native_finalize : SzResult) : Outcome WriterState Unit :=
  if exc then
    let (s₁, c₁) := Writer.cancel s
    ⟨.ok (), s₁, c₁⟩
  else
    let fin := Writer.finalize s native_finalize
    match fin.result with
    | .error e => ⟨.error e, fin.state, fin.calls⟩
    | .ok _ =>
      let (s₁, c₁) := Writer.cancel fin.state
      ⟨.ok (), s₁, fin.calls ++ c₁⟩

/-- A `with`-block on a `Writer`: run the body on the writer, then
`Writer.__exit__` with the body's exception status.  A body exception
propagates unchanged (`__exit__` returns `False`); a successful body is
followed by `finalize` then `cancel`. -/
def with_writer (s : WriterState)
    (body : WriterState → Outcome WriterState Unit)
    (native_finalize : SzResult) : Outcome WriterState Unit :=
  let b := body s
  match b.result with
  | .error e =>
    let ex := Writer.exit_ctx b.state true native_finalize
    ⟨.error e, ex.state, b.calls ++ ex.calls⟩
  | .ok _ =>
    let ex := Writer.exit_ctx b.state false native_finalize
    ⟨ex.result, ex.state, b.calls ++ ex.calls⟩

/-- The `for file_path in files` loop of `create_archive` (`sevenzip.py`
lines 575-580): each entry is dispatched by `Path.is_dir()` (the `Bool`
paired with the path) to `add_directory(…, recursive=True)` or
`add_file(…)`; the first exception stops the loop.  `oracle n` is the
native result of the n-th add call. -/
def add_each (s : WriterState) (files : List (String × Bool))
    (oracle : Nat → SzResult) : Outcome WriterState Unit :=
  match files with
  | [] => ⟨.ok (), s, []⟩
  | (p, is_dir) :: rest =>
    let r := if is_dir then Writer.add_directory s p true (oracle 0)
             else Writer.add_file s p none (oracle 0)
    match r.result with
    | .error e => ⟨.error e, r.state, r.calls⟩
    | .ok _ =>
      let r₂ := add_each r.state rest (fun n => oracle (n + 1))
      ⟨r₂.result, r₂.state, r.calls ++ r₂.calls⟩

/-- The body of the `with`-block in `create_archive` (`sevenzip.py`
lines 569-580): `set_compression_level(level)`, then `set_password` when
a password is given, then the add loop; the first exception aborts the
sequence. -/
def create_archive_body (files : List (String × Bool))
    (password : Option String) (level : String)
    (o_level o_pw : SzResult) (o_add : Nat → SzResult)
    (s : WriterState) : Outcome WriterState Unit :=
  let r₁ := Writer.set_compression_level s (.inl level) o_level
  match r₁.result with
  | .error e => ⟨.error e, r₁.state, r₁.calls⟩
  | .ok _ =>
    match password with
    | some pw =>
      let r₂ := Writer.set_password r₁.state pw o_pw
      match r₂.result with
      | .error e => ⟨.error e, r₂.state, r₁.calls ++ r₂.calls⟩
      | .ok _ =>
        let r₃ := add_each r₂.state files o_add
        ⟨r₃.result, r₃.state, r₁.calls ++ r₂.calls ++ r₃.calls⟩
    | none =>
      let r₃ := add_each r₁.state files o_add
      ⟨r₃.result, r₃.state, r₁.calls ++ r₃.calls⟩

/-- `create_archive` (`sevenzip.py` lines 554-580): `Writer.create`
followed by the `with`-block body under `with_writer`. -/
def create_archive (output_path : String) (files : List (String × Bool))
    (format : String) (password : Option String) (level : String)
    (hdl : Nat) (o_create o_level o_pw : SzResult)
    (o_add : Nat → SzResult) (o_fin : SzResult) :
    Except SevenZipError Unit × List NativeCall :=
  match Writer.create output_path (.inl format) o_create hdl with
  | (.error e, calls) => (.error e, calls)
  | (.ok s, calls) =>
    let w := with_writer s
      (create_archive_body files password level o_level o_pw o_add) o_fin
    (w.result.map (fun _ => ()), calls ++ w.calls)

/-- One filesystem effect performed by `extract_archive`:
`Path.mkdir(parents=True, exist_ok=True)` or `Path.write_bytes`. -/
inductive FsOp
  | mkdir_parents (p : String)
  | write_bytes (p : String) (data : List Nat)
deriving DecidableEq, Repr

/-- Whether a POSIX path is absolute (starts with `'/'`). -/
def starts_slash (s : String) : Bool :=
  match s.data with
  | [] => false
  | c :: _ => c = '/'

/-- `pathlib`'s `/` join as used in `output_dir / item.path`: an absolute
right operand replaces the left one. -/
def path_join (a b : String) : String :=
  if starts_slash b then b else a ++ "/" ++ b

/-- `pathlib`'s `.parent` on the joined output path: drop the final path
component (`.` when there is only one component). -/
def parent_dir (p : String) : String :=
  match p.splitOn "/" with
  | [] => "."
  | [_] => "."
  | comps => String.intercalate "/" comps.dropLast

/-- The per-item body of the extraction loop in `extract_archive`
(`sevenzip.py` lines 541-551): directories are skipped; for a file the
item's bytes are fetched and written to `output_dir / item.path` after
`output_path.parent.mkdir(parents=True, exist_ok=True)`. -/
def extract_item_ops (output_dir : String) (content : Nat → List Nat)
    (it : Item) : List FsOp :=
  if it.is_directory then []
  else
    let output_path := path_join output_dir it.path
    [FsOp.mkdir_parents (parent_dir output_path),
     FsOp.write_bytes output_path (content it.index)]

/-- `extract_archive` (`sevenzip.py` lines 526-551), success path: the
archive content is abstracted as the item list the reader enumerates and
a map `content` from item index to extracted bytes (what
`extract_to_memory` returns on success).  The trace starts with
`output_dir.mkdir(parents=True, exist_ok=True)`. -/
def extract_archive (output_dir : String) (items : List Item)
    (content : Nat → List Nat) : List FsOp :=
  FsOp.mkdir_parents output_dir ::
    items.flatMap (extract_item_ops output_dir content)

/-- The files written by a trace of filesystem effects, in order. -/
def writes_of (ops : List FsOp) : List (String × List Nat) :=
  ops.filterMap (fun op => match op with
    | FsOp.write_bytes p d => some (p, d)
    | _ => none)

/-- `mkdir_before_write made ops` holds when every `write_bytes p _` in
`ops` is preceded (in `ops`, or in the already-made list `made`) by a
`mkdir_parents` of `p`'s parent directory. -/
def mkdir_before_write (made : List String) : List FsOp → Bool
  | [] => true
  | FsOp.mkdir_parents q :: rest => mkdir_before_write (q :: made) rest
  | FsOp.write_bytes p _ :: rest =>
    (parent_dir p ∈ made : Bool) && mkdir_before_write made rest

/-- `'compression_ratio': info.packed_size / info.total_size if
info.total_size > 0 else 0` in `SevenZip.get_archive_info`
(`sevenzip_ffi.py` line 375); real division is modelled over `ℚ`. -/
def compression_ratio (packed_size total_size : Nat) : ℚ :=
  if total_size > 0 then (packed_size : ℚ) / (total_size : ℚ) else 0

/-- Iterated `Archive.close`: `n` successive `close()` calls on the same
instance, with the concatenated native-call trace. -/
def close_loop : Nat → ArchiveState → ArchiveState × List NativeCall
  | 0, s => (s, [])
  | n + 1, s =>
    let (s₁, c₁) := Archive.close s
    let (s₂, c₂) := close_loop n s₁
    (s₂, c₁ ++ c₂)

/-- Iterated `Writer.cancel`: `n` successive `cancel()` calls on the same
instance, with the concatenated native-call trace. -/
def cancel_loop : Nat → WriterState → WriterState × List NativeCall
  | 0, s => (s, [])
  | n + 1, s =>
    let (s₁, c₁) := Writer.cancel s
    let (s₂, c₂) := cancel_loop n s₁
    (s₂, c₁ ++ c₂)

/-- The code of the exception a method raised, when it raised one. -/
def raised_code {σ α : Type} (o : Outcome σ α) : Option SzResult :=
  match o.result with
  | .error e => some e.code
  | .ok _ => none

/-- A method call that raised a `SevenZipError` carrying the default
`FAIL` code and performed no native call at all. -/
def fails_clean {σ α : Type} (o : Outcome σ α) : Bool :=
  (raised_code o = some SzResult.FAIL : Bool) && o.calls.isEmpty

lemma create_calls_inl (path fmt : String) (native : SzResult) (hdl : Nat) :
    (Writer.create path (.inl fmt) native hdl).2
      = [NativeCall.sz_writer_create path (format_map_get fmt).val] := by
  rcases eq_or_ne native .OK with h | h <;> simp [ Writer.create, h]

lemma set_level_calls_live (h : Nat) (lv : String) (native : SzResult) :
    (Writer.set_compression_level ⟨some h, false⟩ (.inl lv) native).calls
      = [NativeCall.sz_writer_set_compression_level (level_map_get lv).val] := by
  rcases eq_or_ne native .OK with e | e <;>
    simp [ Writer.set_compression_level, e]

lemma close_loop_none (n : Nat) : close_loop n ⟨none⟩ = (⟨none⟩, []) := by
  induction n with
  | zero => rfl
  | succ n ih => simp [ close_loop, Archive.close, ih]

lemma cancel_loop_none (n : Nat) (b : Bool) :
    cancel_loop n ⟨none, b⟩ = (⟨none, b⟩, []) := by
  induction n with
  | zero => rfl
  | succ n ih => simp [ cancel_loop, Writer.cancel, ih]

/-- C4: the result-code and format enumerations of the binding's two
modules are mutually inconsistent: the same member name maps to a
different ordinal in `sevenzip.py` than in `sevenzip_ffi.py`
(`INVALID_ARGUMENT` is 5 vs 3; `SEVEN_Z` is 0 while `SEVENZIP` is 1), so
the two definitions are not interchangeable. -/
theorem c4_enums_inconsistent :
    List.lookup "INVALID_ARGUMENT" SzResult.members = some 5 ∧
    List.lookup "INVALID_ARGUMENT" SzResultFfi.members = some 3 ∧
    List.lookup "SEVEN_Z" SzFormat.members = some 0 ∧
    List.lookup "SEVENZIP" SzFormatFfi.members = some 1 ∧
    List.lookup "FILE_NOT_FOUND" SzResult.members ≠
      List.lookup "FILE_NOT_FOUND" SzResultFfi.members ∧
    List.lookup "ZIP" SzFormat.members ≠
      List.lookup "ZIP" SzFormatFfi.members ∧
    SzResult.INVALID_ARGUMENT.val ≠ SzResultFfi.INVALID_ARGUMENT.val := by
  decide

/-- C8: `compression_ratio` equals `packed_size / total_size` when
`total_size > 0` and equals `0` when `total_size = 0`; as a total function
on `ℚ` it never raises a division error. -/
theorem c8_compression_ratio_def (packed total : Nat) :
    (0 < total →
      compression_ratio packed total = (packed : ℚ) / (total : ℚ)) ∧
    (total = 0 → compression_ratio packed total = 0) := by
  refine ⟨fun h => ?_, fun h => ?_⟩
  · simp [ compression_ratio, h]
  · simp [ compression_ratio, h]

/-- Witness for C8 at `packed = 3, total = 6` and `packed = 3, total = 0`. -/
theorem c8_compression_ratio_def_witness :
    compression_ratio 3 6 = (3 : ℚ) / (6 : ℚ) ∧ compression_ratio 3 0 = 0 :=
  ⟨(c8_compression_ratio_def 3 6).1 (by decide),
   (c8_compression_ratio_def 3 0).2 rfl⟩

/-- Counterexample to C10 as stated: `"ZIP"` is not among the recognized
names `'7z', 'sevenzip', 'zip', 'tar', 'gzip', 'gz', 'bzip2', 'bz2',
'xz'`, yet `Writer.create` resolves it to `SzFormat.ZIP` (via
`format.lower()`), not to `SEVEN_Z`. -/
theorem c10_counterexample :
    "ZIP" ∉ ["7z", "sevenzip", "zip", "tar", "gzip", "gz", "bzip2",
             "bz2", "xz"] ∧
    format_map_get "ZIP" = SzFormat.ZIP ∧
    format_map_get "ZIP" ≠ SzFormat.SEVEN_Z := by
  decide

/-- C10 (amended): for every format string whose lowercased form is not
among the recognized names, `Writer.create` silently uses `SEVEN_Z`
rather than raising; likewise, for every compression-level string whose
lowercased form is unrecognized, `set_compression_level` silently uses
`NORMAL`. -/
theorem c10_amended_default_enum (path format level : String)
    (native : SzResult) (hdl h : Nat)
    (hf : py_lower format ∉ ["7z", "sevenzip", "zip", "tar", "gzip", "gz",
                             "bzip2", "bz2", "xz"])
    (hl : py_lower level ∉ ["none", "fast", "normal", "maximum", "ultra"]) :
    format_map_get format = SzFormat.SEVEN_Z ∧
    (Writer.create path (.inl format) native hdl).2
      = [NativeCall.sz_writer_create path SzFormat.SEVEN_Z.val] ∧
    level_map_get level = SzCompressionLevel.NORMAL ∧
    (Writer.set_compression_level ⟨some h, false⟩ (.inl level) native).calls
      = [NativeCall.sz_writer_set_compression_level
          SzCompressionLevel.NORMAL.val] := by
  simp only [List.mem_cons, List.not_mem_nil, or_false, not_or] at hf hl
  obtain ⟨f1, f2, f3, f4, f5, f6, f7, f8, f9⟩ := hf
  obtain ⟨l1, l2, l3, l4, l5⟩ := hl
  have hfm : format_map_get format = SzFormat.SEVEN_Z := by
    simp [ format_map_get, f1, f2, f3, f4, f5, f6, f7, f8, f9]
  have hlm : level_map_get level = SzCompressionLevel.NORMAL := by
    simp [ level_map_get, l1, l2, l3, l4, l5]
  refine ⟨hfm, ?_, hlm, ?_⟩
  · rw [create_calls_inl, hfm]
  · rw [set_level_calls_live, hlm]

/-- Witness for C10 (amended) at `format = "rar5"`, `level = "turbo"`. -/
theorem c10_amended_default_enum_witness :
    format_map_get "rar5" = SzFormat.SEVEN_Z ∧
    (Writer.create "out.7z" (.inl "rar5") SzResult.OK 1).2
      = [NativeCall.sz_writer_create "out.7z" SzFormat.SEVEN_Z.val] ∧
    level_map_get "turbo" = SzCompressionLevel.NORMAL ∧
    (Writer.set_compression_level ⟨some 1, false⟩ (.inl "turbo")
        SzResult.OK).calls
      = [NativeCall.sz_writer_set_compression_level
          SzCompressionLevel.NORMAL.val] :=
  c10_amended_default_enum "out.7z" "rar5" "turbo" SzResult.OK 1 1
    (by decide) (by decide)

/-- C3: over any sequence of `close` calls on an `Archive` and any
sequence of `cancel` calls on a `Writer`, the native release function
(`sz_archive_close` / `sz_writer_cancel`) is invoked at most once, and
the wrapper nulls its internal handle reference at the first release
call. -/
theorem c3_release_at_most_once :
    (∀ (n : Nat) (s : ArchiveState),
      ((close_loop n s).2).count NativeCall.sz_archive_close ≤ 1) ∧
    (∀ (n : Nat) (w : WriterState),
      ((cancel_loop n w).2).count NativeCall.sz_writer_cancel ≤ 1) ∧
    (∀ h : Nat, (Archive.close ⟨some h⟩).1.handle = none) ∧
    (∀ (h : Nat) (b : Bool), (Writer.cancel ⟨some h, b⟩).1.handle = none) := by
  refine ⟨fun n s => ?_, fun n w => ?_, fun h => rfl, fun h b => rfl⟩
  · match n, s with
    | 0, s => simp [ close_loop]
    | n + 1, ⟨none⟩ =>
      simp [ close_loop, Archive.close, close_loop_none]
    | n + 1, ⟨some h⟩ =>
      simp [ close_loop, Archive.close, close_loop_none]
  · match n, w with
    | 0, w => simp [ cancel_loop]
    | n + 1, ⟨none, b⟩ =>
      simp [ cancel_loop, Writer.cancel, cancel_loop_none]
    | n + 1, ⟨some h, b⟩ =>
      simp [ cancel_loop, Writer.cancel, cancel_loop_none]

/-- Counterexample to C1 as stated: from a live writer on which
`finalize` just succeeded, the claim's conjunction fails — `cancel` is
not a no-op (it performs the native `sz_writer_cancel` and changes the
state) and a second `finalize` raises no error at all (it returns
silently), so it is not rejected with `InvalidState`. -/
theorem c1_counterexample :
    ¬ (((Writer.cancel (Writer.finalize ⟨some 1, false⟩ .OK).state).2 = [] ∧
        (Writer.cancel (Writer.finalize ⟨some 1, false⟩ .OK).state).1
          = (Writer.finalize ⟨some 1, false⟩ .OK).state) ∧
       raised_code
         (Writer.finalize (Writer.finalize ⟨some 1, false⟩ .OK).state .OK)
         ≠ none) := by
  decide

/-- C1 (amended): after a successful `finalize`, a subsequent `cancel`
does not raise — but it is not a no-op: it performs the native
`sz_writer_cancel` once and nulls the handle; and a second `finalize` is
not rejected: it returns silently, raising no error and making no native
call. -/
theorem c1_after_finalize (h : Nat) (s : WriterState)
    (hh : s.handle = some h) (hf : s.finalized = false) :
    (Writer.finalize s .OK).result = .ok () ∧
    (Writer.finalize s .OK).state = ⟨some h, true⟩ ∧
    Writer.cancel ⟨some h, true⟩
      = (⟨none, true⟩, [NativeCall.sz_writer_cancel]) ∧
    ∀ m : SzResult,
      Writer.finalize ⟨some h, true⟩ m = ⟨.ok (), ⟨some h, true⟩, []⟩ := by
  obtain ⟨wh, wf⟩ := s
  cases hh; cases hf
  exact ⟨rfl, rfl, rfl, fun m => rfl⟩

/-- Witness for C1 (amended) at a writer with handle 1. -/
theorem c1_after_finalize_witness :
    (Writer.finalize ⟨some 1, false⟩ .OK).result = .ok () ∧
    (Writer.finalize ⟨some 1, false⟩ .OK).state = ⟨some 1, true⟩ ∧
    Writer.cancel ⟨some 1, true⟩
      = (⟨none, true⟩, [NativeCall.sz_writer_cancel]) ∧
    Writer.finalize ⟨some 1, true⟩ .OK = ⟨.ok (), ⟨some 1, true⟩, []⟩ := by
  have h := c1_after_finalize 1 ⟨some 1, false⟩ rfl rfl
  exact ⟨h.1, h.2.1, h.2.2.1, h.2.2.2 .OK⟩

/-- Counterexample to C2 as stated: a cancelled writer's `add_file` does
raise without a native call, but the raised error carries the generic
`FAIL` code (ordinal 1), not an `InvalidState` code: `sevenzip.py`'s
`SzResult` has no `INVALID_STATE` member at all, and the binding's own
`INVALID_STATE` (in `sevenzip_ffi.py`) sits at ordinal 14 ≠ 1. -/
theorem c2_counterexample :
    raised_code (Writer.add_file ⟨none, true⟩ "a.txt" none .OK)
      = some SzResult.FAIL ∧
    (Writer.add_file ⟨none, true⟩ "a.txt" none .OK).calls = [] ∧
    SzResult.FAIL.val = 1 ∧
    SzResultFfi.INVALID_STATE.val = 14 ∧
    "INVALID_STATE" ∉ SzResult.members.map Prod.fst ∧
    SzResult.FAIL.val ≠ SzResultFfi.INVALID_STATE.val := by
  decide

/-- C2 (amended): for every `Writer` in a terminal state (handle nulled
by `cancel`, or `_finalized` set by `finalize`) and every `Archive` after
`close`, each of `add_file`, `add_directory`, `add_memory`,
`set_password`, `set_compression_level`, `item_count`, `get_item_info`
and `extract_to_memory` raises a `SevenZipError` — carrying the generic
`FAIL` code, `sevenzip.py`'s `SzResult` having no `INVALID_STATE`
member — without invoking any native-library function. -/
theorem c2_terminal_ops_fail (w : WriterState) (a : ArchiveState)
    (hw : w.handle = none ∨ w.finalized = true) (ha : a.handle = none)
    (fp dp ap pw : String) (apo : Option String) (r : Bool)
    (data buf : List Nat) (lv : String ⊕ SzCompressionLevel)
    (n : SzResult) (i cnt : Nat) (info : SzItemInfo) :
    fails_clean (Writer.add_file w fp apo n) = true ∧
    fails_clean (Writer.add_directory w dp r n) = true ∧
    fails_clean (Writer.add_memory w data ap n) = true ∧
    fails_clean (Writer.set_password w pw n) = true ∧
    fails_clean (Writer.set_compression_level w lv n) = true ∧
    fails_clean (Archive.item_count a n cnt) = true ∧
    fails_clean (Archive.get_item_info a i n info) = true ∧
    fails_clean (Archive.extract_to_memory a i n buf) = true := by
  obtain ⟨ah⟩ := a
  cases ha
  obtain ⟨wh, wf⟩ := w
  rcases hw with h | h
  · cases h
    exact ⟨rfl, rfl, rfl, rfl, rfl, rfl, rfl, rfl⟩
  · cases h
    cases wh with
    | none => exact ⟨rfl, rfl, rfl, rfl, rfl, rfl, rfl, rfl⟩
    | some _ => exact ⟨rfl, rfl, rfl, rfl, rfl, rfl, rfl, rfl⟩

/-- Witness for C2 (amended): a finalized writer and a closed archive. -/
theorem c2_terminal_ops_fail_witness :
    fails_clean (Writer.add_file ⟨some 1, true⟩ "f.txt" none .OK) = true ∧
    fails_clean (Writer.add_directory ⟨some 1, true⟩ "d" true .OK) = true ∧
    fails_clean (Writer.add_memory ⟨some 1, true⟩ [1, 2] "m.bin" .OK) = true ∧
    fails_clean (Writer.set_password ⟨some 1, true⟩ "pw" .OK) = true ∧
    fails_clean (Writer.set_compression_level ⟨some 1, true⟩
      (.inl "normal") .OK) = true ∧
    fails_clean (Archive.item_count ⟨none⟩ .OK 0) = true ∧
    fails_clean (Archive.get_item_info ⟨none⟩ 0 .OK
      ⟨0, none, 0, 0, 0, 0, 0, 0, 0, 0⟩) = true ∧
    fails_clean (Archive.extract_to_memory ⟨none⟩ 0 .OK []) = true :=
  c2_terminal_ops_fail ⟨some 1, true⟩ ⟨none⟩ (Or.inr rfl) rfl
    "f.txt" "d" "m.bin" "pw" none true [1, 2] [] (.inl "normal") .OK 0 0
    ⟨0, none, 0, 0, 0, 0, 0, 0, 0, 0⟩

/-- C5: for any `with`-block on a `Writer` — `create_archive`'s included —
whose body raises before `finalize` is reached, the implicit cleanup path
invokes `cancel` and never `finalize` on the writer, and the body's error
propagates to the caller. -/
theorem c5_cleanup_cancels_on_error (s : WriterState)
    (body : WriterState → Outcome WriterState Unit)
    (nf : SzResult) (e : SevenZipError)
    (hb : (body s).result = .error e) :
    (with_writer s body nf).result = .error e ∧
    (with_writer s body nf).calls
      = (body s).calls ++ (Writer.cancel (body s).state).2 ∧
    NativeCall.sz_writer_finalize ∉ (Writer.cancel (body s).state).2 ∧
    ((body s).state.handle ≠ none →
      (Writer.cancel (body s).state).2 = [NativeCall.sz_writer_cancel]) := by
  rcases hc : (body s).state.handle with _ | h <;>
    simp [ with_writer, Writer.exit_ctx, hb, Writer.cancel, hc]

/-- A concrete `create_archive` body whose first step
(`set_compression_level`) fails natively, used to witness C5. -/
def c5_example_body : WriterState → Outcome WriterState Unit :=
  create_archive_body [("f.txt", false)] none "normal" .FAIL .OK
    (fun _ => .OK)

/-- Witness for C5: the `create_archive` body on a fresh writer state,
failing at `set_compression_level`. -/
theorem c5_cleanup_cancels_on_error_witness :
    (c5_example_body ⟨some 1, false⟩).result
      = .error (check_result_error "设置压缩级别" SzResult.FAIL) ∧
    (with_writer ⟨some 1, false⟩ c5_example_body SzResult.OK).result
      = .error (check_result_error "设置压缩级别" SzResult.FAIL) ∧
    (Writer.cancel (c5_example_body ⟨some 1, false⟩).state).2
      = [NativeCall.sz_writer_cancel] := by
  have hb : (c5_example_body ⟨some 1, false⟩).result
      = .error (check_result_error "设置压缩级别" SzResult.FAIL) := by
    decide
  have h := c5_cleanup_cancels_on_error ⟨some 1, false⟩ c5_example_body
    SzResult.OK _ hb
  exact ⟨hb, h.1, h.2.2.2 (by decide)⟩

/-- C7: on every successful `extract_to_memory` call the native buffer is
released via `sz_memory_free` exactly once, and only after its bytes were
copied by `ctypes.string_at`; the returned bytes are the copied buffer
content, owned by the caller. -/
theorem c7_extract_frees_once (s : ArchiveState) (h i : Nat)
    (buf : List Nat) (hh : s.handle = some h) :
    (Archive.extract_to_memory s i .OK buf).result = .ok buf ∧
    (Archive.extract_to_memory s i .OK buf).calls.count
      NativeCall.sz_memory_free = 1 ∧
    (Archive.extract_to_memory s i .OK buf).calls.indexOf
        NativeCall.ctypes_string_at
      < (Archive.extract_to_memory s i .OK buf).calls.indexOf
          NativeCall.sz_memory_free := by
  obtain ⟨ah⟩ := s
  cases hh
  refine ⟨rfl, ?_, ?_⟩ <;>
    simp [ Archive.extract_to_memory, List.count_cons, List.indexOf_cons]

/-- Witness for C7 at a live archive, index 0, buffer `[7, 8]`. -/
theorem c7_extract_frees_once_witness :
    (Archive.extract_to_memory ⟨some 1⟩ 0 .OK [7, 8]).result = .ok [7, 8] ∧
    (Archive.extract_to_memory ⟨some 1⟩ 0 .OK [7, 8]).calls.count
      NativeCall.sz_memory_free = 1 ∧
    (Archive.extract_to_memory ⟨some 1⟩ 0 .OK [7, 8]).calls.indexOf
        NativeCall.ctypes_string_at
      < (Archive.extract_to_memory ⟨some 1⟩ 0 .OK [7, 8]).calls.indexOf
          NativeCall.sz_memory_free :=
  c7_extract_frees_once ⟨some 1⟩ 1 0 [7, 8] rfl

/-- C9: when `archive_path` is omitted, `add_file` passes the base name
(the final `/`-separated component) of the source file path to the native
`sz_writer_add_file` call. -/
theorem c9_add_file_default_basename (s : WriterState) (h : Nat)
    (fp : String) (l : List String) (c : String) (n : SzResult)
    (hh : s.handle = some h) (hf : s.finalized = false)
    (hsplit : split_slash fp = l ++ [c]) (hc1 : c ≠ "") (hc2 : c ≠ ".") :
    (Writer.add_file s fp none n).calls
      = [NativeCall.sz_writer_add_file fp c] := by
  obtain ⟨wh, wf⟩ := s
  cases hh; cases hf
  have hname : pathlib_name fp = c := by
    unfold pathlib_name
    rw [hsplit, List.filter_append]
    have hc : ((c != "" && c != ".") : Bool) = true := by
      simp [hc1, hc2]
    simp [List.filter_cons, hc, List.getLast?_concat]
  rcases eq_or_ne n .OK with e | e <;> simp [ Writer.add_file, e, hname]

/-- Witness for C9 at `file_path = "dir/file.txt"`. -/
theorem c9_add_file_default_basename_witness :
    (Writer.add_file ⟨some 1, false⟩ "dir/file.txt" none .OK).calls
      = [NativeCall.sz_writer_add_file "dir/file.txt" "file.txt"] :=
  c9_add_file_default_basename ⟨some 1, false⟩ 1 "dir/file.txt"
    ["dir"] "file.txt" .OK rfl rfl (by decide) (by decide) (by decide)

lemma writes_of_append (a b : List FsOp) :
    writes_of (a ++ b) = writes_of a ++ writes_of b := by
  simp [ writes_of, List.filterMap_append]

lemma writes_of_flatMap (d : String) (content : Nat → List Nat)
    (items : List Item) :
    writes_of (items.flatMap (extract_item_ops d content))
      = (items.filter (fun it => !it.is_directory)).map
          (fun it => (path_join d it.path, content it.index)) := by
  induction items with
  | nil => rfl
  | cons it rest ih =>
    rw [List.flatMap_cons, writes_of_append, ih]
    rcases hd : it.is_directory <;>
      simp [ extract_item_ops, hd, writes_of, List.filter_cons]

lemma mkdir_before_write_flatMap (d : String) (content : Nat → List Nat)
    (items : List Item) (made : List String) :
    mkdir_before_write made (items.flatMap (extract_item_ops d content))
      = true := by
  induction items generalizing made with
  | nil => rfl
  | cons it rest ih =>
    rw [List.flatMap_cons]
    rcases hd : it.is_directory
    · simpa [ extract_item_ops, hd, mkdir_before_write] using
        ih (parent_dir (path_join d it.path) :: made)
    · simpa [ extract_item_ops, hd] using ih made

/-- C6: `extract_archive` writes exactly the non-directory items, each to
`output_dir` joined (by `/`) with the item's relative path, with the
extracted bytes of that item; and every write is preceded in the
filesystem trace by a `mkdir(parents=True)` of the written file's parent
directory. -/
theorem c6_extract_archive_writes (d : String) (items : List Item)
    (content : Nat → List Nat)
    (hrel : ∀ it ∈ items, starts_slash it.path = false) :
    writes_of (extract_archive d items content)
      = (items.filter (fun it => !it.is_directory)).map
          (fun it => (d ++ "/" ++ it.path, content it.index)) ∧
    mkdir_before_write [] (extract_archive d items content) = true := by
  constructor
  · have h1 : writes_of (extract_archive d items content)
        = writes_of (items.flatMap (extract_item_ops d content)) := rfl
    rw [h1, writes_of_flatMap]
    refine List.map_congr_left fun it hit => ?_
    have hm : it ∈ items := (List.mem_filter.mp hit).1
    simp [ path_join, hrel it hm]
  · have h2 : mkdir_before_write [] (extract_archive d items content)
        = mkdir_before_write [d]
            (items.flatMap (extract_item_ops d content)) := rfl
    rw [h2, mkdir_before_write_flatMap]

/-- Witness for C6: a three-item archive (file, directory, nested file)
extracted to `"out"`. -/
theorem c6_extract_archive_writes_witness :
    writes_of (extract_archive "out"
        [⟨0, "a.txt", 3, 1, 1, false, false, none, false, 0, 0⟩,
         ⟨1, "sub", 0, 0, 0, true, false, none, false, 0, 0⟩,
         ⟨2, "sub/b.txt", 2, 1, 1, false, false, none, false, 0, 0⟩]
        (fun i => [i, i]))
      = [("out" ++ "/" ++ "a.txt", [0, 0]),
         ("out" ++ "/" ++ "sub/b.txt", [2, 2])] ∧
    mkdir_before_write [] (extract_archive "out"
        [⟨0, "a.txt", 3, 1, 1, false, false, none, false, 0, 0⟩,
         ⟨1, "sub", 0, 0, 0, true, false, none, false, 0, 0⟩,
         ⟨2, "sub/b.txt", 2, 1, 1, false, false, none, false, 0, 0⟩]
        (fun i => [i, i])) = true := by
  have h := c6_extract_archive_writes "out"
    [⟨0, "a.txt", 3, 1, 1, false, false, none, false, 0, 0⟩,
     ⟨1, "sub", 0, 0, 0, true, false, none, false, 0, 0⟩,
     ⟨2, "sub/b.txt", 2, 1, 1, false, false, none, false, 0, 0⟩]
    (fun i => [i, i]) (by decide)
  exact ⟨by rw [h.1]; decide, h.2⟩

end LibSevenZip
